import Mathlib

/-!
Verification development for the eStatistika API server.

The Python sources under `api/src` are shallowly embedded: Python strings
become `List Char`, `datetime` values become natural numbers, the relational
tables become lists of records inside a `DB` state, HTTP handlers become pure
functions from a `DB` (plus the outcome of the external inference backend,
which is a parameter) to a result and a new `DB`.  Each SQLAlchemy `commit` is
one atomic transition of the `DB` value.
-/

set_option linter.unusedVariables false

/-- Python strings are modelled as lists of characters (Python indexing and
slicing are character based, as is `List Char`). -/
abbrev Str := List Char

/-- Transcription helper: the character list of a Lean string literal. -/
def str (s : String) : Str := s.data

/-- Model of Python `str.startswith`: `startsWithL needle hay` is true iff
`needle` is a prefix of `hay`. -/
def startsWithL : Str → Str → Bool
  | [], _ => true
  | _ :: _, [] => false
  | a :: as, b :: bs => a == b && startsWithL as bs

/-- Model of the Python substring test `needle in hay`. -/
def hasSub (needle : Str) : Str → Bool
  | [] => startsWithL needle []
  | b :: bs => startsWithL needle (b :: bs) || hasSub needle bs

/-- Model of Python `str.lower` (character-wise ASCII lowering; every
character the code actually tests against is ASCII). -/
def pyLower (s : Str) : Str := s.map Char.toLower

/- ## Data model (database/models.py) -/

/-- A row of the `chats` table (models.py, class Chat). -/
structure ChatRec where
  id : Str
  user_id : Nat
  created_at : Nat
  updated_at : Nat
deriving DecidableEq

/-- A row of the `messages` table (models.py, class Message). -/
structure MessageRec where
  id : Nat
  chat_id : Str
  role : Str
  content : Str
  created_at : Nat
deriving DecidableEq

/-- A row of the `statistics_requests` table (models.py, class StatisticsRequest). -/
structure StatRec where
  id : Nat
  user_id : Nat
  request_info : Str
  response : Str
  source : Str
  created_at : Nat
deriving DecidableEq

/-- A row of the `sessions` table (models.py, class Session); only the fields
read by `get_current_user` are kept. -/
structure SessionRec where
  id : Str
  user_id : Nat
  expires_at : Nat
deriving DecidableEq

/-- A row of the `users` table (models.py, class User); only the fields the
verified handlers read. -/
structure UserRec where
  id : Nat
  username : Str
deriving DecidableEq

/-- The database state: tables in row-insertion order plus the surrogate-key
counters of the autoincrement primary keys. -/
structure DB where
  chats : List ChatRec
  messages : List MessageRec
  stats : List StatRec
  nextMessageId : Nat
  nextStatId : Nat
deriving DecidableEq

/- ## Chat store (core/chats.py, ChatManager) -/

/-- `ChatManager.get_chat`: `SELECT ... WHERE Chat.id == chat_id`, one row or
none (ids are primary keys). -/
def get_chat (db : DB) (chat_id : Str) : Option ChatRec :=
  db.chats.find? (fun c => c.id == chat_id)

/-- `ChatManager.create_chat`: inserts a chat row (the fresh uuid is a
parameter) and commits. -/
def create_chat (db : DB) (user_id : Nat) (newId : Str) (now : Nat) : DB × ChatRec :=
  let chat : ChatRec := ⟨newId, user_id, now, now⟩
  ({ db with chats := db.chats ++ [chat] }, chat)

/-- `ChatManager.add_message`: inserts a message row (created_at is the commit
time `now`), bumps the parent chat's updated_at when the chat exists, in one
commit. -/
def add_message (db : DB) (chat_id role content : Str) (now : Nat) : DB × MessageRec :=
  let msg : MessageRec := ⟨db.nextMessageId, chat_id, role, content, now⟩
  ({ db with
      messages := db.messages ++ [msg],
      chats := db.chats.map (fun c => if c.id == chat_id then { c with updated_at := now } else c),
      nextMessageId := db.nextMessageId + 1 }, msg)

/-- `ChatManager.delete_chat`: when the chat exists, deletes its messages and
the chat row in one commit (a single atomic transition here); otherwise
returns false. -/
def delete_chat (db : DB) (chat_id : Str) : DB × Bool :=
  match get_chat db chat_id with
  | some _ =>
      ({ db with
          messages := db.messages.filter (fun m => !(m.chat_id == chat_id)),
          chats := db.chats.filter (fun c => !(c.id == chat_id)) }, true)
  | none => (db, false)

/-- Stable insertion of a message into a list sorted by `created_at`: the new
element goes before the first element with a not-smaller timestamp. -/
def insertByCreated (m : MessageRec) : List MessageRec → List MessageRec
  | [] => [m]
  | x :: xs =>
      if m.created_at ≤ x.created_at then m :: x :: xs else x :: insertByCreated m xs

/-- One admissible result of `ORDER BY Message.created_at`: a stable insertion
sort over rows in insertion order.  The handlers are embedded with this
deterministic refinement; the engine-level contract itself — the configured
engine (PostgreSQL, config.py database_url) leaves the relative order of
rows with equal created_at unspecified, the query having no secondary key —
is `isOrderByCreatedResult` below. -/
def sortByCreated : List MessageRec → List MessageRec
  | [] => []
  | x :: xs => insertByCreated x (sortByCreated xs)

/-- `ChatManager.get_chat_messages`: the chat's messages ordered by
`created_at` ascending. -/
def get_chat_messages (db : DB) (chat_id : Str) : List MessageRec :=
  sortByCreated (db.messages.filter (fun m => m.chat_id == chat_id))

/-- What `ORDER BY Message.created_at` (core/chats.py lines 55-61) guarantees
on the configured PostgreSQL engine, where the query has no secondary sort
key: the result is SOME permutation of the matching rows whose created_at
column is non-decreasing; the relative order of rows with equal created_at
is not specified. -/
def isOrderByCreatedResult (rows result : List MessageRec) : Prop :=
  result.Perm rows ∧
  List.Chain' (fun a b : MessageRec => a.created_at ≤ b.created_at) result

/- ## Chat history service (services/chat_history_service.py) -/

/-- A `{role, content}` pair, the shape sent to the inference backend. -/
structure RoleMsg where
  role : Str
  content : Str
deriving DecidableEq

/-- `ChatHistoryService.format_for_ai`: the chat's history (via
`get_chat_messages`) converted to `{role, content}` pairs. -/
def format_for_ai (db : DB) (chat_id : Str) : List RoleMsg :=
  (get_chat_messages db chat_id).map (fun m => ⟨m.role, m.content⟩)

/-- `ChatHistoryService.verify_chat_access`: the chat exists and its
`user_id` equals the requesting user's id. -/
def verify_chat_access (db : DB) (chat_id : Str) (user_id : Nat) : Bool :=
  match get_chat db chat_id with
  | some chat => chat.user_id == user_id
  | none => false

/- ## Statistics service (services/statistics_service.py) -/

/-- The system prompt built by both `generate_statistics` and
`generate_statistics_stream` (identical literal in both functions). -/
def statsSystemPrompt : Str := str "You are a helpful statistics assistant. When users ask for statistics, provide clear, well-formatted responses.\n\n⚠️ CRITICAL LANGUAGE RULE - THIS IS THE MOST IMPORTANT INSTRUCTION:\nYou MUST respond in the EXACT SAME LANGUAGE as the user\x27s question, regardless of what language it is.\n- Detect the language from the user\x27s question automatically\n- Respond in that EXACT SAME LANGUAGE - do not translate or change the language\n- This applies to ANY language: English, Spanish, French, German, Italian, Portuguese, Chinese, Japanese, Korean, Arabic, Russian, Hindi, or any other language\n- Match the language EXACTLY - preserve the same language throughout your entire response\n\nFORMATTING REQUIREMENTS:\n- Use clear headings and sections\n- Use bullet points or numbered lists for multiple statistics\n- Use line breaks between sections for readability\n- Bold important numbers or key statistics\n- Organize information in a logical flow\n- Use proper spacing and structure\n\nRESPONSE STRUCTURE:\n1. Start with a brief introduction/overview\n2. Present the main statistics clearly (use lists if multiple)\n3. Include relevant dates or time periods\n4. Mention the source of the data\n5. Provide a brief explanation or context\n\nMake the response easy to scan and read. Use clear formatting with proper spacing."

/-- The context note appended to the user prompt when history is non-empty. -/
def statsContextNote : Str := str "\n\nNote: You have access to previous conversation context. Use it to provide relevant and contextual statistics."

/-- The user prompt (an f-string embedding the query and context note). -/
def statsUserPrompt (query context_note : Str) : Str :=
  str "User\x27s question (respond in the SAME LANGUAGE as this question): " ++ query ++ context_note ++
  str "\n\n⚠️ CRITICAL REMINDER: \n- Detect the language of the question above automatically\n- Respond in the EXACT SAME LANGUAGE as the question\n- Do NOT translate or change the language\n- Use the same language for your entire response\n\nIMPORTANT FORMATTING REQUIREMENTS:\n1. START your response by clearly restating the user\x27s question in a highlighted format like this:\n   \"📋 **Question:** [restate the user\x27s question here]\"\n   \n2. Then provide your response with:\n   - Clear sections with headings (use ## for main headings)\n   - Bullet points or numbered lists for multiple statistics\n   - Line breaks between sections for readability\n   - Bold important numbers or key statistics using **text**\n   - Proper spacing and structure\n\n3. Structure your response as follows:\n   - Start with: \"📋 **Question:** [user\x27s question]\"\n   - Then: Brief overview/introduction\n   - Main statistics (use bullet points if multiple)\n   - Date/relevance period\n   - Source information\n   - Brief explanation/context\n\n4. Use clear formatting:\n   - Use double line breaks (\\n\\n) between major sections\n   - Use single line breaks (\\n) within sections\n   - Use markdown-style formatting: **bold** for emphasis, ## for headings\n   - Make the response easy to scan and read\n\nFormat with proper spacing and structure for maximum readability."

/-- The `messages` list sent to the backend: system prompt, then the given
history minus entries whose role is "system", then the user prompt (with the
context note iff the history is non-empty). -/
def build_messages (query : Str) (chat_history : List RoleMsg) : List RoleMsg :=
  let hist := chat_history.filter (fun m => !(m.role == str "system"))
  let context_note := if chat_history.isEmpty then [] else statsContextNote
  (⟨str "system", statsSystemPrompt⟩ :: hist) ++ [⟨str "user", statsUserPrompt query context_note⟩]

/-- The JSON body POSTed to `/api/chat` by `generate_statistics`
(statistics_service.py lines 112-119).  It has exactly the keys `model`,
`messages` and `stream`; in particular no temperature/options field. -/
structure OllamaChatRequest where
  model : Str
  messages : List RoleMsg
  stream : Bool
deriving DecidableEq

/-- The request body of the non-streaming call (`"stream": False`). -/
def statistics_request_body (query : Str) (chat_history : List RoleMsg) (mn : Str) :
    OllamaChatRequest :=
  ⟨mn, build_messages query chat_history, false⟩

/-- The request body of the streaming call (`"stream": True`),
statistics_service.py lines 250-254. -/
def statistics_stream_request_body (query : Str) (chat_history : List RoleMsg) (mn : Str) :
    OllamaChatRequest :=
  ⟨mn, build_messages query chat_history, true⟩

/-- Outcome of the non-streaming transport call: either a parsed JSON reply
(`message.content` when the key path is present, and the fallback `response`
field) or an `httpx.HTTPError` with its message. -/
inductive BackendReply where
  | ok (messageContent : Option Str) (responseField : Option Str)
  | httpError (err : Str)
deriving DecidableEq

/-- The default text used when the reply carries no content. -/
def unableFallback : Str := str "Unable to generate statistics at this time."

/-- The apology prefix of the transport-failure fallback. -/
def apologyText : Str := str "I apologize, but I\x27m unable to generate statistics at this time. Please try again later. Error: "

/-- Lines 124-127: `data.get("message", {}).get("content", default)`, falling
back to `data.get("response", default)` when the first result is falsy. -/
def extract_response (messageContent responseField : Option Str) : Str :=
  let ai := match messageContent with
    | some c => c
    | none => unableFallback
  if ai.isEmpty then
    match responseField with
    | some r => r
    | none => unableFallback
  else ai

/-- The dictionary returned by `StatisticsService.generate_statistics`. -/
structure GenResult where
  response : Str
  source : Str
  date : Str
  model : Str
deriving DecidableEq

/-- `StatisticsService.generate_statistics`: on success, the extracted text
with the caller's source label and today's date; on `httpx.HTTPError`, the
apology sentinel with `model = "error"` (the function never raises: both
branches return a value). -/
def generate_statistics (query source : Str) (chat_history : List RoleMsg)
    (mn : Str) (reply : BackendReply) (today : Str) : GenResult :=
  match reply with
  | .ok mc rf => { response := extract_response mc rf, source := source, date := today, model := mn }
  | .httpError e =>
      { response := apologyText ++ e, source := source, date := today, model := str "error" }

/-- One newline-delimited JSON line of the streaming reply: empty line,
malformed JSON (skipped), or a parsed chunk `{message:{content}, done}`. -/
inductive StreamLine where
  | blank
  | malformed
  | chunk (content : Str) (done : Bool)
deriving DecidableEq

/-- Lines 257-267: yield each non-empty `message.content`, stop at the first
line with `done = true`. -/
def process_stream_lines : List StreamLine → List Str
  | [] => []
  | .blank :: rest => process_stream_lines rest
  | .malformed :: rest => process_stream_lines rest
  | .chunk c d :: rest =>
      (if c.isEmpty then [] else [c]) ++ (if d then [] else process_stream_lines rest)

/-- Outcome of the streaming transport call: the received lines, or an
`httpx.HTTPError` raised when connecting (backend unreachable). -/
inductive StreamReply where
  | ok (lines : List StreamLine)
  | httpError (err : Str)
deriving DecidableEq

/-- `StatisticsService.generate_statistics_stream`: the sequence of fragments
yielded to the consumer.  On transport failure the except branch yields the
single apology fragment and the generator ends; no error propagates. -/
def generate_statistics_stream (query source : Str) (chat_history : List RoleMsg)
    (reply : StreamReply) : List Str :=
  match reply with
  | .ok lines => process_stream_lines lines
  | .httpError e => [apologyText ++ e]

/- ## Auth dependency (core/dependencies.py) -/

/-- An `HTTPException`: status code and detail string. -/
structure HttpErr where
  status : Nat
  detail : Str
deriving DecidableEq

/-- `get_current_user`: look the bearer token up as a session id; 401
"Invalid token" when absent; 401 "Token expired" when `expires_at < now`;
otherwise the session's user (resolved through the `user_id` foreign key,
which the schema keeps pointing at an existing row). -/
def get_current_user (sessions : List SessionRec) (users : List UserRec)
    (token : Str) (now : Nat) : Except HttpErr (Option UserRec) :=
  match sessions.find? (fun s => s.id == token) with
  | none => .error ⟨401, str "Invalid token"⟩
  | some s =>
      if s.expires_at < now then .error ⟨401, str "Token expired"⟩
      else .ok (users.find? (fun u => u.id == s.user_id))

/- ## Request boundary schemas (schemas/init) -/

/-- `ChatRequest`: message plus a validated temperature
(`Field(default=0.7, ge=0.0, le=2.0)`), modelled over the rationals. -/
structure ChatRequest where
  message : Str
  temperature : Rat
deriving DecidableEq

/-- The pydantic bounds on `ChatRequest.temperature`. -/
def chatRequestValid (r : ChatRequest) : Bool :=
  decide (0 ≤ r.temperature) && decide (r.temperature ≤ 2)

/-- The default value of `ChatRequest.temperature`. -/
def chatRequestDefaultTemperature : Rat := 7 / 10

/-- `ChatResponse`: the body returned by the non-streaming chat endpoint. -/
structure ChatResponse where
  response : Str
  model : Str
deriving DecidableEq

/-- `StatisticsResponse`: the body returned by the statistics endpoints. -/
structure StatisticsResponse where
  id : Nat
  request_info : Str
  response : Str
  source : Str
  created_at : Nat
deriving DecidableEq

/- ## Chat router (routers/chat.py) -/

/-- Externally visible side effects of a chat handler, in execution order:
a committed message insert, or the outbound call to the inference backend
carrying its request body. -/
inductive Event where
  | appendMsg (chat_id role content : Str)
  | callBackend (body : OllamaChatRequest)
deriving DecidableEq

/-- The question-marker constant of routers/chat.py. -/
def query_marker : Str := str "📋 **Question:**"

/-- The header prepended when the marker is missing. -/
def questionHeader (message : Str) : Str :=
  query_marker ++ str " " ++ message ++ str "\n\n"

/-- Lines 70-79 of routers/chat.py: prepend the question header when the text
neither starts with the marker nor mentions "Question:" in its first 100
characters; then append the source/date block when neither "Source:" nor a
case-insensitive "source:" occurs. -/
def formatChatResponse (resp message source date : Str) : Str :=
  let f1 :=
    if !(startsWithL query_marker resp) && !(hasSub (str "Question:") (resp.take 100)) then
      questionHeader message ++ resp
    else resp
  if !(hasSub (str "Source:") f1) && !(hasSub (str "source:") (pyLower f1)) then
    f1 ++ str "\n\n---\n**Source:** " ++ source ++ str "\n**Date:** " ++ date
  else f1

/-- The same post-processing as the specification states it: the marker
prefix is added iff the text neither begins with the marker nor contains
"Question:" within its first 100 characters, and the source/date block is
appended iff "source:" does not occur case-insensitively anywhere. -/
def formatChatResponseSpec (resp message source date : Str) : Str :=
  let f1 :=
    if !(startsWithL query_marker resp) && !(hasSub (str "Question:") (resp.take 100)) then
      questionHeader message ++ resp
    else resp
  if !(hasSub (str "source:") (pyLower f1)) then
    f1 ++ str "\n\n---\n**Source:** " ++ source ++ str "\n**Date:** " ++ date
  else f1

/-- Result of the non-streaming chat handler: HTTP outcome, final database
state, and the ordered side-effect trace. -/
structure ChatHandlerResult where
  result : Except HttpErr ChatResponse
  db : DB
  trace : List Event

/-- The `POST /chat` handler (routers/chat.py lines 49-84): ownership check
(404 on failure), load history, append the user message, call the backend
with that history, post-process, append the assistant message, return the
processed text.  `t1`/`t2` are the commit times of the two inserts, `today`
the formatted current date, `reply` the backend's transport outcome. -/
def chat_handler (db : DB) (chat_id : Str) (uid : Nat) (req : ChatRequest)
    (mn : Str) (reply : BackendReply) (today : Str) (t1 t2 : Nat) : ChatHandlerResult :=
  if verify_chat_access db chat_id uid then
    let history := format_for_ai db chat_id
    let db1 := (add_message db chat_id (str "user") req.message t1).1
    let result := generate_statistics req.message (str "AI Generated") history mn reply today
    let formatted := formatChatResponse result.response req.message result.source result.date
    let db2 := (add_message db1 chat_id (str "assistant") formatted t2).1
    { result := .ok ⟨formatted, result.model⟩, db := db2,
      trace := [.appendMsg chat_id (str "user") req.message,
                .callBackend (statistics_request_body req.message history mn),
                .appendMsg chat_id (str "assistant") formatted] }
  else
    { result := .error ⟨404, str "Chat not found"⟩, db := db, trace := [] }

/-- The mutable state of the `generate_with_history` closure. -/
structure StreamState where
  full_response : Str
  query_added : Bool
  emitted : List Str
deriving DecidableEq

/-- One loop iteration (lines 135-140): accumulate the chunk, latch the
query-marker flag when the marker (anywhere) or "Question:" (in the first
200 accumulated characters) is seen, and forward the chunk unchanged. -/
def streamStep (s : StreamState) (chunk : Str) : StreamState :=
  let fr := s.full_response ++ chunk
  { full_response := fr,
    query_added :=
      s.query_added || (hasSub query_marker fr || hasSub (str "Question:") (fr.take 200)),
    emitted := s.emitted ++ [chunk] }

/-- The source/date block of the streaming path (line 152; the source label
is the constant "AI Generated" there). -/
def sourceInfo (today : Str) : Str :=
  str "\n\n---\n**Source:** AI Generated\n**Date:** " ++ today

/-- What `generate_with_history` delivers: the outgoing fragments in order,
and the assistant message persisted after the stream ends (none when the
buffer stayed empty). -/
structure StreamOut where
  emitted : List Str
  persisted : Option Str
deriving DecidableEq

/-- Lines 128-158 of routers/chat.py: forward every backend fragment while
accumulating it; after the stream ends, prepend the question header to the
buffer only (never emitted) when the flag stayed false and the buffer is
non-empty; append and ALSO emit the source/date block when no source mention
exists in the buffer; persist the final buffer when non-empty. -/
def generate_with_history (message today : Str) (chunks : List Str) : StreamOut :=
  let s := chunks.foldl streamStep ⟨[], false, []⟩
  let fr1 :=
    if !s.query_added && !s.full_response.isEmpty then
      questionHeader message ++ s.full_response
    else s.full_response
  let needSrc :=
    !fr1.isEmpty && (!(hasSub (str "Source:") fr1) && !(hasSub (str "source:") (pyLower fr1)))
  let fr2 := if needSrc then fr1 ++ sourceInfo today else fr1
  let em2 := if needSrc then s.emitted ++ [sourceInfo today] else s.emitted
  { emitted := em2, persisted := if fr2.isEmpty then none else some fr2 }

/-- Result of the streaming chat handler. -/
structure StreamHandlerResult where
  result : Except HttpErr Unit
  emitted : List Str
  db : DB
  trace : List Event

/-- The `POST /chat/stream` handler (routers/chat.py lines 87-163): ownership
check, load history, append the user message, drive the streaming backend
call, reassemble via `generate_with_history`, persist the buffer when
non-empty. -/
def chat_stream_handler (db : DB) (chat_id : Str) (uid : Nat) (req : ChatRequest)
    (mn : Str) (reply : StreamReply) (today : Str) (t1 t2 : Nat) : StreamHandlerResult :=
  if verify_chat_access db chat_id uid then
    let history := format_for_ai db chat_id
    let db1 := (add_message db chat_id (str "user") req.message t1).1
    let chunks := generate_statistics_stream req.message (str "AI Generated") history reply
    let out := generate_with_history req.message today chunks
    match out.persisted with
    | some content =>
        { result := .ok (), emitted := out.emitted,
          db := (add_message db1 chat_id (str "assistant") content t2).1,
          trace := [.appendMsg chat_id (str "user") req.message,
                    .callBackend (statistics_stream_request_body req.message history mn),
                    .appendMsg chat_id (str "assistant") content] }
    | none =>
        { result := .ok (), emitted := out.emitted, db := db1,
          trace := [.appendMsg chat_id (str "user") req.message,
                    .callBackend (statistics_stream_request_body req.message history mn)] }
  else
    { result := .error ⟨404, str "Chat not found"⟩, emitted := [], db := db, trace := [] }

/- ## Chats router (routers/chats.py) -/

/-- The uniform not-found error of the chat-scoped endpoints. -/
def notFoundErr : HttpErr := ⟨404, str "Chat not found"⟩

/-- The guard `not chat or chat.user_id != current_user.id` used by
routers/chats.py. -/
def chat_owner_denied (chat : Option ChatRec) (uid : Nat) : Bool :=
  match chat with
  | none => true
  | some c => c.user_id != uid

/-- `DELETE /chats/{chat_id}` (routers/chats.py lines 40-52): 404 when the
chat is absent or owned by someone else, otherwise delete it (204). -/
def delete_chat_endpoint (db : DB) (chat_id : Str) (uid : Nat) :
    Except HttpErr Unit × DB :=
  if chat_owner_denied (get_chat db chat_id) uid then (.error notFoundErr, db)
  else (.ok (), (delete_chat db chat_id).1)

/-- `GET /chats/{chat_id}/messages` (routers/chats.py lines 55-71): 404 under
the same guard, otherwise the ordered (role, content, created_at) rows. -/
def get_chat_messages_endpoint (db : DB) (chat_id : Str) (uid : Nat) :
    Except HttpErr (List (Str × Str × Nat)) :=
  if chat_owner_denied (get_chat db chat_id) uid then .error notFoundErr
  else .ok ((get_chat_messages db chat_id).map (fun m => (m.role, m.content, m.created_at)))

/- ## Statistics router (routers/statistics.py) -/

/-- Where (if anywhere) an exception interrupts the best-effort companion
chat block of `create_statistics_request` (lines 47-67); an interrupted step
leaves no committed effect of its own. -/
inductive MirrorFail where
  | noFail
  | atCreateChat
  | atUserMsg
  | atAssistantMsg
deriving DecidableEq

/-- `POST /statistics` (routers/statistics.py lines 20-77): generate, persist
the StatisticsRequest row, then best-effort create a companion chat with the
two mirror messages — any exception there is caught and swallowed (lines
64-67) — and return the persisted row with 201. -/
def create_statistics_request_handler (db : DB) (uid : Nat) (query source0 : Str)
    (mn : Str) (reply : BackendReply) (today : Str) (newChatId : Str)
    (mf : MirrorFail) (t : Nat) : Except HttpErr StatisticsResponse × DB :=
  let gen := generate_statistics query source0 [] mn reply today
  let row : StatRec := ⟨db.nextStatId, uid, query, gen.response, gen.source, t⟩
  let db1 : DB := { db with stats := db.stats ++ [row], nextStatId := db.nextStatId + 1 }
  let db2 :=
    match mf with
    | .atCreateChat => db1
    | _ =>
      let created := create_chat db1 uid newChatId t
      match mf with
      | .atUserMsg => created.1
      | _ =>
        let dbU := (add_message created.1 created.2.id (str "user") query t).1
        match mf with
        | .atAssistantMsg => dbU
        | _ => (add_message dbU created.2.id (str "assistant") gen.response t).1
  (.ok ⟨row.id, row.request_info, row.response, row.source, row.created_at⟩, db2)

/- ## Helper definitions used by the theorems -/

/-- The per-iteration marker test of the streaming loop (routers/chat.py line
138), as a function of the accumulated buffer. -/
def markerCheck (buf : Str) : Bool :=
  hasSub query_marker buf || hasSub (str "Question:") (buf.take 200)

/-- The message rows a sequence of `(role, content, created_at)` appends to a
chat produces, with consecutive autoincrement ids starting at `n`. -/
def mkMsgs (n : Nat) (cid : Str) : List (Str × Str × Nat) → List MessageRec
  | [] => []
  | e :: rest => ⟨n, cid, e.1, e.2.1, e.2.2⟩ :: mkMsgs (n + 1) cid rest

/-- Run a sequence of `add_message` calls against one chat. -/
def applyAppends (db : DB) (cid : Str) : List (Str × Str × Nat) → DB
  | [] => db
  | e :: rest => applyAppends (add_message db cid e.1 e.2.1 e.2.2).1 cid rest

/- ## Concrete fixtures for the witness theorems -/

/-- A database holding one chat `"c1"` owned by user 1 with one message, and
one chat `"c2"` owned by user 2 with one message. -/
def dbTwoChats : DB :=
  { chats := [⟨str "c1", 1, 0, 0⟩, ⟨str "c2", 2, 0, 0⟩],
    messages := [⟨0, str "c1", str "user", str "hi", 1⟩,
                 ⟨1, str "c2", str "user", str "yo", 2⟩],
    stats := [], nextMessageId := 2, nextStatId := 0 }

/-- A database holding a single empty chat `"c1"` owned by user 1. -/
def dbOneChat : DB :=
  { chats := [⟨str "c1", 1, 0, 0⟩], messages := [], stats := [],
    nextMessageId := 0, nextStatId := 0 }

/- ## Lemmas about the string model -/

theorem startsWithL_append (n : Str) :
    ∀ s t : Str, startsWithL n s = true → startsWithL n (s ++ t) = true := by
  induction n with
  | nil => intro s t h; simp [startsWithL]
  | cons a as ih =>
    intro s t h
    cases s with
    | nil => simp [startsWithL] at h
    | cons b bs =>
      simp only [startsWithL, Bool.and_eq_true] at h
      simp only [List.cons_append, startsWithL, Bool.and_eq_true]
      exact ⟨h.1, ih bs t h.2⟩

theorem hasSub_nil_needle : ∀ h : Str, hasSub [] h = true := by
  intro h
  cases h with
  | nil => rfl
  | cons b bs => simp [hasSub, startsWithL]

theorem hasSub_append_right (n : Str) :
    ∀ a b : Str, hasSub n a = true → hasSub n (a ++ b) = true := by
  intro a
  induction a with
  | nil =>
    intro b h
    cases n with
    | nil => exact hasSub_nil_needle b
    | cons x xs => simp [hasSub, startsWithL] at h
  | cons y ys ih =>
    intro b h
    simp only [hasSub, Bool.or_eq_true] at h
    simp only [List.cons_append, hasSub, Bool.or_eq_true]
    rcases h with h | h
    · exact Or.inl (startsWithL_append n (y :: ys) b h)
    · exact Or.inr (ih b h)

theorem hasSub_take_append (n a b : Str) (k : Nat) (h : hasSub n (a.take k) = true) :
    hasSub n ((a ++ b).take k) = true := by
  rw [List.take_append_eq_append_take]
  exact hasSub_append_right n (a.take k) (b.take (k - a.length)) h

theorem startsWithL_map (f : Char → Char) (n : Str) :
    ∀ s : Str, startsWithL n s = true → startsWithL (n.map f) (s.map f) = true := by
  induction n with
  | nil => intro s h; simp [startsWithL]
  | cons a as ih =>
    intro s h
    cases s with
    | nil => simp [startsWithL] at h
    | cons b bs =>
      simp only [startsWithL, Bool.and_eq_true, beq_iff_eq] at h
      simp only [List.map_cons, startsWithL, Bool.and_eq_true, beq_iff_eq]
      exact ⟨by rw [h.1], ih bs h.2⟩

theorem hasSub_map (f : Char → Char) (n : Str) :
    ∀ h : Str, hasSub n h = true → hasSub (n.map f) (h.map f) = true := by
  intro h
  induction h with
  | nil =>
    intro hh
    cases n with
    | nil => simp [hasSub, startsWithL]
    | cons x xs => simp [hasSub, startsWithL] at hh
  | cons b bs ih =>
    intro hh
    simp only [hasSub, Bool.or_eq_true] at hh
    simp only [List.map_cons, hasSub, Bool.or_eq_true]
    rcases hh with hh | hh
    · exact Or.inl (by simpa using startsWithL_map f n (b :: bs) hh)
    · exact Or.inr (ih hh)

/-- A capitalised "Source:" mention always shows up in the lowered text: the
conjunction tested by the code collapses to the case-insensitive test the
specification states. -/
theorem hasSub_source_lower (t : Str) (h : hasSub (str "Source:") t = true) :
    hasSub (str "source:") (pyLower t) = true := by
  have hm := hasSub_map Char.toLower (str "Source:") t h
  have he : (str "Source:").map Char.toLower = str "source:" := by decide
  rw [he] at hm
  exact hm

theorem markerCheck_append (a b : Str) (h : markerCheck a = true) :
    markerCheck (a ++ b) = true := by
  simp only [markerCheck, Bool.or_eq_true] at h ⊢
  rcases h with h | h
  · exact Or.inl (hasSub_append_right _ a b h)
  · exact Or.inr (hasSub_take_append _ a b 200 h)

/- ## Lemmas about the message ordering model -/

theorem sortByCreated_sorted_id :
    ∀ l : List MessageRec,
      List.Chain' (fun a b => a.created_at ≤ b.created_at) l → sortByCreated l = l := by
  intro l
  induction l with
  | nil => intro _; rfl
  | cons x xs ih =>
    intro hc
    have hxs : List.Chain' (fun a b => a.created_at ≤ b.created_at) xs := hc.tail
    rw [sortByCreated, ih hxs]
    cases xs with
    | nil => rfl
    | cons y ys =>
      have hxy : x.created_at ≤ y.created_at := (List.chain'_cons.mp hc).1
      simp [insertByCreated, hxy]

theorem insertByCreated_append_big (x m : MessageRec) (hx : x.created_at ≤ m.created_at) :
    ∀ s : List MessageRec, insertByCreated x (s ++ [m]) = insertByCreated x s ++ [m] := by
  intro s
  induction s with
  | nil => simp [insertByCreated, hx]
  | cons y ys ih =>
    by_cases hxy : x.created_at ≤ y.created_at
    · simp [insertByCreated, hxy]
    · simp [insertByCreated, hxy, ih]

theorem sortByCreated_append_big (m : MessageRec) :
    ∀ l : List MessageRec, (∀ x ∈ l, x.created_at ≤ m.created_at) →
      sortByCreated (l ++ [m]) = sortByCreated l ++ [m] := by
  intro l
  induction l with
  | nil => simp [sortByCreated, insertByCreated]
  | cons x xs ih =>
    intro hall
    have hx : x.created_at ≤ m.created_at := hall x (by simp)
    have hxs : ∀ y ∈ xs, y.created_at ≤ m.created_at := fun y hy => hall y (by simp [hy])
    simp only [List.cons_append, sortByCreated, List.append_eq, ih hxs]
    exact insertByCreated_append_big x m hx (sortByCreated xs)

/- ## Lemmas about find? and filter under deletion -/

theorem find?_filter_imp {α : Type} (p q : α → Bool) (himp : ∀ x, p x = true → q x = true) :
    ∀ l : List α, (l.filter q).find? p = l.find? p := by
  intro l
  induction l with
  | nil => rfl
  | cons x xs ih =>
    by_cases hq : q x = true
    · rw [List.filter_cons_of_pos hq]
      cases hp : p x with
      | true => simp [List.find?, hp]
      | false => simp [List.find?, hp, ih]
    · have hp : p x = false := by
        cases hp2 : p x with
        | true => exact absurd (himp x hp2) hq
        | false => rfl
      rw [List.filter_cons_of_neg (by simp [hq])]
      simp [List.find?, hp, ih]

theorem filter_filter_imp {α : Type} (p q : α → Bool) (himp : ∀ x, p x = true → q x = true) :
    ∀ l : List α, (l.filter q).filter p = l.filter p := by
  intro l
  induction l with
  | nil => rfl
  | cons x xs ih =>
    by_cases hq : q x = true
    · rw [List.filter_cons_of_pos hq]
      cases hp : p x with
      | true => simp [List.filter_cons, hp, ih]
      | false => simp [List.filter_cons, hp, ih]
    · have hp : p x = false := by
        cases hp2 : p x with
        | true => exact absurd (himp x hp2) hq
        | false => rfl
      rw [List.filter_cons_of_neg (by simp [hq])]
      rw [List.filter_cons_of_neg (by simp [hp]), ih]

/- ## Lemmas about the streaming fold -/

theorem foldl_streamStep_fr :
    ∀ (chunks : List Str) (s : StreamState),
      (chunks.foldl streamStep s).full_response = s.full_response ++ chunks.flatten := by
  intro chunks
  induction chunks with
  | nil => intro s; simp
  | cons c cs ih =>
    intro s
    simp only [List.foldl_cons, ih, List.flatten_cons, streamStep]
    simp [List.append_assoc]

theorem foldl_streamStep_emitted :
    ∀ (chunks : List Str) (s : StreamState),
      (chunks.foldl streamStep s).emitted = s.emitted ++ chunks := by
  intro chunks
  induction chunks with
  | nil => intro s; simp
  | cons c cs ih =>
    intro s
    simp only [List.foldl_cons, ih, streamStep]
    simp

theorem foldl_streamStep_qa (chunks : List Str) :
    (chunks.foldl streamStep ⟨[], false, []⟩).query_added = markerCheck chunks.flatten := by
  induction chunks using List.reverseRecOn with
  | nil => simp [markerCheck, hasSub, startsWithL, query_marker, str]
  | append_singleton cs c ih =>
    rw [List.foldl_append]
    have hstep : (List.foldl streamStep (cs.foldl streamStep ⟨[], false, []⟩) [c]).query_added =
        ((cs.foldl streamStep ⟨[], false, []⟩).query_added ||
          markerCheck ((cs.foldl streamStep ⟨[], false, []⟩).full_response ++ c)) := rfl
    have hfr : (cs.foldl streamStep ⟨[], false, []⟩).full_response = cs.flatten := by
      simpa using foldl_streamStep_fr cs ⟨[], false, []⟩
    rw [hstep, hfr, ih, List.flatten_append]
    simp only [List.flatten_cons, List.flatten_nil, List.append_nil]
    cases hm : markerCheck cs.flatten with
    | true => simp [markerCheck_append cs.flatten c hm]
    | false => simp

/- ## Lemmas about sequences of appends -/

theorem applyAppends_messages (cid : Str) :
    ∀ (l : List (Str × Str × Nat)) (db : DB),
      (applyAppends db cid l).messages = db.messages ++ mkMsgs db.nextMessageId cid l := by
  intro l
  induction l with
  | nil => intro db; simp [applyAppends, mkMsgs]
  | cons e rest ih =>
    intro db
    rw [applyAppends, ih, mkMsgs]
    simp [add_message, List.append_assoc]

theorem mkMsgs_filter (cid : Str) :
    ∀ (l : List (Str × Str × Nat)) (n : Nat),
      (mkMsgs n cid l).filter (fun m => m.chat_id == cid) = mkMsgs n cid l := by
  intro l
  induction l with
  | nil => intro n; rfl
  | cons e rest ih =>
    intro n
    rw [mkMsgs, List.filter_cons_of_pos (by simp), ih]

theorem mkMsgs_created_at (cid : Str) :
    ∀ (l : List (Str × Str × Nat)) (n : Nat),
      (mkMsgs n cid l).map (fun m => m.created_at) = l.map (fun e => e.2.2) := by
  intro l
  induction l with
  | nil => intro n; rfl
  | cons e rest ih =>
    intro n
    simp [mkMsgs, ih]

theorem mkMsgs_project (cid : Str) :
    ∀ (l : List (Str × Str × Nat)) (n : Nat),
      (mkMsgs n cid l).map (fun m => (m.role, m.content, m.created_at)) = l := by
  intro l
  induction l with
  | nil => intro n; rfl
  | cons e rest ih =>
    intro n
    simp [mkMsgs, ih]

/-- The guard of routers/chats.py is the negation of
`ChatHistoryService.verify_chat_access`. -/
theorem chat_owner_denied_eq_not_verify (db : DB) (cid : Str) (uid : Nat) :
    chat_owner_denied (get_chat db cid) uid = !(verify_chat_access db cid uid) := by
  unfold chat_owner_denied verify_chat_access
  cases get_chat db cid with
  | none => rfl
  | some c => simp [bne]

/- ## Claim theorems -/

/-- C5: on transport/backend failure the single-shot `generate_statistics`
returns (never raises — it is a total function here) a result whose response
contains the word "unable" and whose model field is "error"; and the
streaming variant yields exactly one fragment (the apology) and ends,
propagating no error. -/
theorem c5_generation_failure_fallback (query source : Str) (hist : List RoleMsg)
    (mn today e : Str) :
    (generate_statistics query source hist mn (.httpError e) today).model = str "error" ∧
    hasSub (str "unable")
      (generate_statistics query source hist mn (.httpError e) today).response = true ∧
    generate_statistics_stream query source hist (.httpError e) = [apologyText ++ e] ∧
    hasSub (str "unable") (apologyText ++ e) = true := by
  refine ⟨rfl, ?_, rfl, ?_⟩
  · exact hasSub_append_right _ apologyText e (by decide)
  · exact hasSub_append_right _ apologyText e (by decide)

/-- C6: once the StatisticsRequest row is persisted, a failure at any point
of the companion-chat block is swallowed: the handler still returns the
persisted row with success (201), the returned value is identical to the
no-failure outcome, and the statistics_requests table holds exactly the new
row regardless of where the mirror failed. -/
theorem c6_companion_chat_isolated (db : DB) (uid : Nat) (query source0 mn : Str)
    (reply : BackendReply) (today newChatId : Str) (t : Nat) (mf : MirrorFail) :
    (create_statistics_request_handler db uid query source0 mn reply today newChatId mf t).1 =
      (create_statistics_request_handler db uid query source0 mn reply today newChatId .noFail t).1 ∧
    (create_statistics_request_handler db uid query source0 mn reply today newChatId mf t).1 =
      .ok ⟨db.nextStatId, query,
           (generate_statistics query source0 [] mn reply today).response,
           (generate_statistics query source0 [] mn reply today).source, t⟩ ∧
    (create_statistics_request_handler db uid query source0 mn reply today newChatId mf t).2.stats =
      db.stats ++ [⟨db.nextStatId, uid, query,
           (generate_statistics query source0 [] mn reply today).response,
           (generate_statistics query source0 [] mn reply today).source, t⟩] := by
  cases mf <;> exact ⟨rfl, rfl, rfl⟩

/-- C4 counterexample: the claim asserts the expiry boundary is inclusive
(`now >= expires_at` fails with TokenExpired), but at `now = expires_at = 100`
the code's strict test `expires_at < now` does not fire and the request is
served with the session's user instead of failing. -/
theorem c4_boundary_counterexample :
    get_current_user [⟨str "tok", 1, 100⟩] [⟨1, str "alice"⟩] (str "tok") 100 =
      Except.ok (some ⟨1, str "alice"⟩) ∧
    get_current_user [⟨str "tok", 1, 100⟩] [⟨1, str "alice"⟩] (str "tok") 100 ≠
      Except.error ⟨401, str "Token expired"⟩ := by
  have hv : get_current_user [⟨str "tok", 1, 100⟩] [⟨1, str "alice"⟩] (str "tok") 100 =
      Except.ok (some ⟨1, str "alice"⟩) := by rfl
  refine ⟨hv, ?_⟩
  rw [hv]
  intro hcontra
  exact Except.noConfusion hcontra

/-- C4 as amended: token validation fails 401 "Invalid token" when no session
with the bearer-token id exists, fails 401 "Token expired" whenever the
current time is STRICTLY greater than the session's expires_at (a session at
exactly expires_at is still valid — exclusive boundary), and otherwise yields
the session's owning user row. -/
theorem c4_amended_token_validation (sessions : List SessionRec) (users : List UserRec)
    (token : Str) (now : Nat) :
    (sessions.find? (fun s => s.id == token) = none →
      get_current_user sessions users token now = .error ⟨401, str "Invalid token"⟩) ∧
    (∀ s : SessionRec, sessions.find? (fun s2 => s2.id == token) = some s →
      (s.expires_at < now →
        get_current_user sessions users token now = .error ⟨401, str "Token expired"⟩) ∧
      (now ≤ s.expires_at →
        get_current_user sessions users token now =
          .ok (users.find? (fun u => u.id == s.user_id)))) := by
  refine ⟨?_, ?_⟩
  · intro hnone
    unfold get_current_user
    rw [hnone]
  · intro s hs
    refine ⟨?_, ?_⟩
    · intro hexp
      unfold get_current_user
      rw [hs]
      simp [hexp]
    · intro hle
      unfold get_current_user
      rw [hs]
      simp [Nat.not_lt.mpr hle]

/-- Witness for the amended C4: a concretely expired session (now = 101 just
past expires_at = 100) fails "Token expired", and a session exactly at its
expiry (now = 100) is served. -/
theorem c4_amended_token_validation_witness :
    get_current_user [⟨str "tok", 1, 100⟩] [⟨1, str "alice"⟩] (str "tok") 101 =
      .error ⟨401, str "Token expired"⟩ ∧
    get_current_user [⟨str "tok", 1, 100⟩] [⟨1, str "alice"⟩] (str "tok") 100 =
      .ok (some ⟨1, str "alice"⟩) := by
  constructor
  · exact ((c4_amended_token_validation [⟨str "tok", 1, 100⟩] [⟨1, str "alice"⟩]
      (str "tok") 101).2 ⟨str "tok", 1, 100⟩ (by decide)).1 (by decide)
  · have h := ((c4_amended_token_validation [⟨str "tok", 1, 100⟩] [⟨1, str "alice"⟩]
      (str "tok") 100).2 ⟨str "tok", 1, 100⟩ (by decide)).2 (by decide)
    rw [h]
    rfl

/-- C1: `verify_chat_access` is true exactly when the chat exists and belongs
to the user; and whenever it is false — whether the chat is absent or owned
by a different user — every chat-scoped endpoint (send message, stream
message, delete chat, list messages) fails with the one identical 404
"Chat not found" error (status 404, never 403 Forbidden). -/
theorem c1_ownership_check_and_uniform_notfound (db : DB) (cid : Str) (uid : Nat)
    (req : ChatRequest) (mn : Str) (reply : BackendReply) (sreply : StreamReply)
    (today : Str) (t1 t2 : Nat) :
    (verify_chat_access db cid uid = true ↔
      ∃ c : ChatRec, get_chat db cid = some c ∧ c.user_id = uid) ∧
    notFoundErr = ⟨404, str "Chat not found"⟩ ∧
    (verify_chat_access db cid uid = false →
      (chat_handler db cid uid req mn reply today t1 t2).result = .error notFoundErr ∧
      (chat_stream_handler db cid uid req mn sreply today t1 t2).result = .error notFoundErr ∧
      (delete_chat_endpoint db cid uid).1 = .error notFoundErr ∧
      get_chat_messages_endpoint db cid uid = .error notFoundErr) := by
  refine ⟨?_, rfl, ?_⟩
  · unfold verify_chat_access
    cases hg : get_chat db cid with
    | none => simp
    | some c => simp [beq_iff_eq]
  · intro hv
    have hd : chat_owner_denied (get_chat db cid) uid = true := by
      rw [chat_owner_denied_eq_not_verify, hv]
      rfl
    refine ⟨?_, ?_, ?_, ?_⟩
    · simp [chat_handler, hv, notFoundErr]
    · simp [chat_stream_handler, hv, notFoundErr]
    · simp [delete_chat_endpoint, hd]
    · simp [get_chat_messages_endpoint, hd]

/-- Witness for C1: in `dbTwoChats`, chat "c1" belongs to user 1, so user 2
gets the uniform 404 from the delete endpoint and the chat endpoint. -/
theorem c1_ownership_check_and_uniform_notfound_witness :
    (delete_chat_endpoint dbTwoChats (str "c1") 2).1 = .error notFoundErr ∧
    (chat_handler dbTwoChats (str "c1") 2 ⟨str "q", 1⟩ (str "m")
      (.httpError []) (str "D") 3 4).result = .error notFoundErr := by
  have h := (c1_ownership_check_and_uniform_notfound dbTwoChats (str "c1") 2 ⟨str "q", 1⟩
      (str "m") (.httpError []) (.httpError []) (str "D") 3 4).2.2 (by decide)
  exact ⟨h.2.2.1, h.1⟩

/-- C8: deleting an existing chat removes the chat row and all its messages
in one atomic transition (the code commits both DELETEs together):
afterwards `get_chat` yields none and `get_chat_messages` the empty list, and
every other chat and its messages are unchanged; no intermediate state exists
in the model because the deletion is a single `DB` transition. -/
theorem c8_delete_chat_atomic (db : DB) (cid : Str)
    (h : ∃ c : ChatRec, get_chat db cid = some c) :
    get_chat (delete_chat db cid).1 cid = none ∧
    get_chat_messages (delete_chat db cid).1 cid = [] ∧
    ∀ cid2 : Str, cid2 ≠ cid →
      get_chat (delete_chat db cid).1 cid2 = get_chat db cid2 ∧
      get_chat_messages (delete_chat db cid).1 cid2 = get_chat_messages db cid2 := by
  obtain ⟨c, hc⟩ := h
  have hdel : (delete_chat db cid).1 =
      { db with
        messages := db.messages.filter (fun m => !(m.chat_id == cid)),
        chats := db.chats.filter (fun c2 => !(c2.id == cid)) } := by
    unfold delete_chat
    rw [hc]
  refine ⟨?_, ?_, ?_⟩
  · rw [hdel]
    unfold get_chat
    rw [List.find?_eq_none]
    intro x hx
    have hmem := (List.mem_filter.mp hx).2
    simp only [Bool.not_eq_true'] at hmem
    simp [hmem]
  · rw [hdel]
    unfold get_chat_messages
    have hnil : ((db.messages.filter (fun m => !(m.chat_id == cid))).filter
        (fun m => m.chat_id == cid)) = [] := by
      rw [List.filter_filter]
      apply List.filter_eq_nil_iff.mpr
      intro a ha
      simp
    rw [hnil]
    rfl
  · intro cid2 hne
    have himp1 : ∀ x : ChatRec, (x.id == cid2) = true → (!(x.id == cid)) = true := by
      intro x hx
      have hx2 : x.id = cid2 := by simpa using hx
      rw [hx2, beq_eq_false_iff_ne.mpr hne]
      rfl
    have himp2 : ∀ m : MessageRec, (m.chat_id == cid2) = true → (!(m.chat_id == cid)) = true := by
      intro m hm2
      have hm3 : m.chat_id = cid2 := by simpa using hm2
      rw [hm3, beq_eq_false_iff_ne.mpr hne]
      rfl
    constructor
    · rw [hdel]
      unfold get_chat
      exact find?_filter_imp _ _ himp1 db.chats
    · rw [hdel]
      unfold get_chat_messages
      rw [filter_filter_imp _ _ himp2 db.messages]

/-- Witness for C8: deleting "c1" from `dbTwoChats` empties it and leaves
"c2" (chat row and messages) untouched. -/
theorem c8_delete_chat_atomic_witness :
    get_chat (delete_chat dbTwoChats (str "c1")).1 (str "c1") = none ∧
    get_chat_messages (delete_chat dbTwoChats (str "c1")).1 (str "c1") = [] ∧
    get_chat_messages (delete_chat dbTwoChats (str "c1")).1 (str "c2") =
      get_chat_messages dbTwoChats (str "c2") := by
  have h := c8_delete_chat_atomic dbTwoChats (str "c1")
    ⟨⟨str "c1", 1, 0, 0⟩, by decide⟩
  exact ⟨h.1, h.2.1, (h.2.2 (str "c2") (by decide)).2⟩

/-- C3: on an owned chat the non-streaming handler's side-effect trace has the
user-message append strictly before the backend call, the backend call's
chat_history is built from the state loaded BEFORE that append (the new user
message enters only as the query inside the user prompt), and the append
leaves the chat's contents equal to the old ones plus the user message — so a
crash during generation still finds the user's turn persisted. -/
theorem c3_user_message_persisted_before_generation (db : DB) (cid : Str) (uid : Nat)
    (req : ChatRequest) (mn : Str) (reply : BackendReply) (today : Str) (t1 t2 : Nat)
    (h : verify_chat_access db cid uid = true)
    (ht : ∀ m ∈ db.messages, m.created_at ≤ t1) :
    (chat_handler db cid uid req mn reply today t1 t2).trace.take 2 =
      [Event.appendMsg cid (str "user") req.message,
       Event.callBackend (statistics_request_body req.message (format_for_ai db cid) mn)] ∧
    (get_chat_messages (add_message db cid (str "user") req.message t1).1 cid).map
        (fun m => m.content) =
      (get_chat_messages db cid).map (fun m => m.content) ++ [req.message] := by
  constructor
  · simp [chat_handler, h]
  · have hmsgs : (add_message db cid (str "user") req.message t1).1.messages =
        db.messages ++ [⟨db.nextMessageId, cid, str "user", req.message, t1⟩] := rfl
    unfold get_chat_messages
    rw [hmsgs, List.filter_append]
    have hone : (([⟨db.nextMessageId, cid, str "user", req.message, t1⟩] :
        List MessageRec).filter (fun m => m.chat_id == cid)) =
        [⟨db.nextMessageId, cid, str "user", req.message, t1⟩] := by simp
    rw [hone]
    have hbig : ∀ x ∈ db.messages.filter (fun m => m.chat_id == cid),
        x.created_at ≤
          (⟨db.nextMessageId, cid, str "user", req.message, t1⟩ : MessageRec).created_at := by
      intro x hx
      exact ht x (List.mem_filter.mp hx).1
    rw [sortByCreated_append_big _ _ hbig]
    simp

/-- Witness for C3: user 1 sends "2+2?" on its chat "c1" of `dbTwoChats`. -/
theorem c3_user_message_persisted_before_generation_witness :
    (chat_handler dbTwoChats (str "c1") 1 ⟨str "2+2?", 1⟩ (str "m")
        (.httpError []) (str "D") 3 4).trace.take 2 =
      [Event.appendMsg (str "c1") (str "user") (str "2+2?"),
       Event.callBackend (statistics_request_body (str "2+2?")
          (format_for_ai dbTwoChats (str "c1")) (str "m"))] :=
  (c3_user_message_persisted_before_generation dbTwoChats (str "c1") 1 ⟨str "2+2?", 1⟩
    (str "m") (.httpError []) (str "D") 3 4 (by decide) (by decide)).1

/-- The double source test of the code (`"Source:" not in t and "source:"
not in t.lower()`) equals the single case-insensitive test the specification
states: a literal "Source:" occurrence implies a lowered "source:" one. -/
theorem source_cond_collapse (t : Str) :
    (!(hasSub (str "Source:") t) && !(hasSub (str "source:") (pyLower t))) =
      !(hasSub (str "source:") (pyLower t)) := by
  cases hlow : hasSub (str "source:") (pyLower t) with
  | true => simp
  | false =>
    have hS : hasSub (str "Source:") t = false := by
      cases hS2 : hasSub (str "Source:") t with
      | false => rfl
      | true => rw [hasSub_source_lower t hS2] at hlow; exact Bool.noConfusion hlow
    simp [hS]

/-- C2: once the backend fragment sequence ends (with a non-empty
accumulated buffer): the question header is prepended only to the persisted
buffer — the emitted fragments are exactly the backend chunks plus at most
the source block, never the header — when the marker check (marker anywhere,
or "Question:" in the first 200 buffered characters) stayed false; the
source/date block, when no case-insensitive "source:" mention exists in the
buffer, is both appended to the persisted text and emitted as exactly one
extra fragment; and the persisted assistant text is (optional header) ++
concatenated chunks ++ (optional source block). -/
theorem c2_stream_reassembly (message today : Str) (chunks : List Str)
    (hne : chunks.flatten ≠ []) :
    (generate_with_history message today chunks).persisted =
      some ((if markerCheck chunks.flatten then chunks.flatten
             else questionHeader message ++ chunks.flatten) ++
            (if hasSub (str "source:")
                (pyLower (if markerCheck chunks.flatten then chunks.flatten
                          else questionHeader message ++ chunks.flatten)) then []
             else sourceInfo today)) ∧
    (generate_with_history message today chunks).emitted =
      chunks ++
        (if hasSub (str "source:")
            (pyLower (if markerCheck chunks.flatten then chunks.flatten
                      else questionHeader message ++ chunks.flatten)) then []
         else [sourceInfo today]) := by
  have hs : chunks.foldl streamStep ⟨[], false, []⟩ =
      ⟨chunks.flatten, markerCheck chunks.flatten, chunks⟩ := by
    have h1 := foldl_streamStep_fr chunks ⟨[], false, []⟩
    have h2 := foldl_streamStep_emitted chunks ⟨[], false, []⟩
    have h3 := foldl_streamStep_qa chunks
    cases hfold : chunks.foldl streamStep ⟨[], false, []⟩ with
    | mk fr qa em =>
      rw [hfold] at h1 h2 h3
      simp only [List.nil_append] at h1 h2 h3
      rw [h1, h2, h3]
  have hbe : chunks.flatten.isEmpty = false := by
    cases hfe : chunks.flatten with
    | nil => exact absurd hfe hne
    | cons a l => rfl
  have hqh : (questionHeader message ++ chunks.flatten).isEmpty = false := rfl
  have happ : ∀ a b : Str, a.isEmpty = false → (a ++ b).isEmpty = false := by
    intro a b ha
    cases a with
    | nil => simp at ha
    | cons x xs => rfl
  have hSfalse : ∀ W : Str, hasSub (str "source:") (pyLower W) = false →
      hasSub (str "Source:") W = false := by
    intro W hW
    cases hx : hasSub (str "Source:") W with
    | false => rfl
    | true => rw [hasSub_source_lower W hx] at hW; exact Bool.noConfusion hW
  have hsi : sourceInfo today ≠ [] := by
    unfold sourceInfo
    exact List.append_ne_nil_of_left_ne_nil (by decide) today
  cases hqa : markerCheck chunks.flatten with
  | true =>
    cases hsrc : hasSub (str "source:") (pyLower chunks.flatten) with
    | true =>
      constructor
      · simp [generate_with_history, hs, hqa, hbe, hsrc]
      · simp [generate_with_history, hs, hqa, hbe, hsrc]
    | false =>
      have hS2 := hSfalse chunks.flatten hsrc
      constructor
      · simp [generate_with_history, hs, hqa, hbe, hsrc, hS2, hne, hsi,
              happ chunks.flatten (sourceInfo today) hbe]
      · simp [generate_with_history, hs, hqa, hbe, hsrc, hS2]
  | false =>
    cases hsrc : hasSub (str "source:")
        (pyLower (questionHeader message ++ chunks.flatten)) with
    | true =>
      constructor
      · simp [generate_with_history, hs, hqa, hbe, hqh, hsrc]
      · simp [generate_with_history, hs, hqa, hbe, hqh, hsrc]
    | false =>
      have hS2 := hSfalse (questionHeader message ++ chunks.flatten) hsrc
      constructor
      · simp [generate_with_history, hs, hqa, hbe, hqh, hsrc, hS2, hne, hsi,
              happ (questionHeader message ++ chunks.flatten) (sourceInfo today) hqh]
      · simp [generate_with_history, hs, hqa, hbe, hqh, hsrc, hS2]

/-- Witness for C2: one backend fragment "Hello" (no marker, no source
mention): the live stream gets the fragment plus exactly the source block. -/
theorem c2_stream_reassembly_witness :
    (generate_with_history (str "hi") (str "D") [str "Hello"]).emitted =
      [str "Hello"] ++ [sourceInfo (str "D")] := by
  have h := (c2_stream_reassembly (str "hi") (str "D") [str "Hello"] (by decide)).2
  rw [h]
  decide

/-- The code's post-processing equals the specification's description of it
for every input. -/
theorem formatChatResponse_eq_spec (resp m s d : Str) :
    formatChatResponse resp m s d = formatChatResponseSpec resp m s d := by
  unfold formatChatResponse formatChatResponseSpec
  simp only [source_cond_collapse]

/-- C7: in the non-streaming path the response returned to the caller and the
assistant message appended to history are the same text, namely the model
output post-processed by `formatChatResponse`; and that post-processing is
exactly what the claim states (`formatChatResponseSpec`): prepend the marker
header iff the output neither starts with the marker nor contains "Question:"
in its first 100 characters, append the source/date block iff "source:" does
not occur case-insensitively. -/
theorem c7_nonstreaming_format (db : DB) (cid : Str) (uid : Nat) (req : ChatRequest)
    (mn : Str) (reply : BackendReply) (today : Str) (t1 t2 : Nat)
    (h : verify_chat_access db cid uid = true) :
    (∀ resp m s d : Str, formatChatResponse resp m s d = formatChatResponseSpec resp m s d) ∧
    (chat_handler db cid uid req mn reply today t1 t2).result =
      .ok ⟨formatChatResponse
             (generate_statistics req.message (str "AI Generated")
                (format_for_ai db cid) mn reply today).response
             req.message
             (generate_statistics req.message (str "AI Generated")
                (format_for_ai db cid) mn reply today).source
             (generate_statistics req.message (str "AI Generated")
                (format_for_ai db cid) mn reply today).date,
           (generate_statistics req.message (str "AI Generated")
                (format_for_ai db cid) mn reply today).model⟩ ∧
    (chat_handler db cid uid req mn reply today t1 t2).trace.getLast? =
      some (.appendMsg cid (str "assistant")
        (formatChatResponse
          (generate_statistics req.message (str "AI Generated")
             (format_for_ai db cid) mn reply today).response
          req.message
          (generate_statistics req.message (str "AI Generated")
             (format_for_ai db cid) mn reply today).source
          (generate_statistics req.message (str "AI Generated")
             (format_for_ai db cid) mn reply today).date)) := by
  refine ⟨formatChatResponse_eq_spec, ?_, ?_⟩
  · simp [chat_handler, h]
  · simp [chat_handler, h]

/-- Witness for C7: user 1 posts on its own chat "c1"; the handler returns
the post-processed model output. -/
theorem c7_nonstreaming_format_witness :
    (chat_handler dbTwoChats (str "c1") 1 ⟨str "Population?", 1⟩ (str "m")
        (.ok (some (str "Paris has 2M people.")) none) (str "2026-10-12") 3 4).result =
      .ok ⟨formatChatResponse
             (generate_statistics (str "Population?") (str "AI Generated")
                (format_for_ai dbTwoChats (str "c1")) (str "m")
                (.ok (some (str "Paris has 2M people.")) none) (str "2026-10-12")).response
             (str "Population?")
             (generate_statistics (str "Population?") (str "AI Generated")
                (format_for_ai dbTwoChats (str "c1")) (str "m")
                (.ok (some (str "Paris has 2M people.")) none) (str "2026-10-12")).source
             (generate_statistics (str "Population?") (str "AI Generated")
                (format_for_ai dbTwoChats (str "c1")) (str "m")
                (.ok (some (str "Paris has 2M people.")) none) (str "2026-10-12")).date,
           (generate_statistics (str "Population?") (str "AI Generated")
                (format_for_ai dbTwoChats (str "c1")) (str "m")
                (.ok (some (str "Paris has 2M people.")) none) (str "2026-10-12")).model⟩ :=
  (c7_nonstreaming_format dbTwoChats (str "c1") 1 ⟨str "Population?", 1⟩ (str "m")
    (.ok (some (str "Paris has 2M people.")) none) (str "2026-10-12") 3 4 (by decide)).2.1

/-- C10: the validated temperature of a chat request is never forwarded to
the inference backend: for any two in-range temperatures and otherwise equal
inputs, both handlers produce identical results, database states, emitted
fragments and side-effect traces — including the backend request body, whose
shape (`OllamaChatRequest`) carries no temperature field at all. -/
theorem c10_temperature_not_forwarded (db : DB) (cid : Str) (uid : Nat) (msg : Str)
    (ta tb : Rat) (mn today : Str) (reply : BackendReply) (sreply : StreamReply)
    (t1 t2 : Nat)
    (ha : chatRequestValid ⟨msg, ta⟩ = true) (hb : chatRequestValid ⟨msg, tb⟩ = true) :
    chat_handler db cid uid ⟨msg, ta⟩ mn reply today t1 t2 =
      chat_handler db cid uid ⟨msg, tb⟩ mn reply today t1 t2 ∧
    chat_stream_handler db cid uid ⟨msg, ta⟩ mn sreply today t1 t2 =
      chat_stream_handler db cid uid ⟨msg, tb⟩ mn sreply today t1 t2 :=
  ⟨rfl, rfl⟩

/-- Witness for C10: temperatures 0 and 2 (both admissible) give identical
handler outcomes. -/
theorem c10_temperature_not_forwarded_witness :
    chatRequestValid ⟨str "q", 0⟩ = true ∧
    chat_handler dbTwoChats (str "c1") 1 ⟨str "q", 0⟩ (str "m")
        (.httpError []) (str "D") 3 4 =
      chat_handler dbTwoChats (str "c1") 1 ⟨str "q", 2⟩ (str "m")
        (.httpError []) (str "D") 3 4 :=
  ⟨by decide,
   (c10_temperature_not_forwarded dbTwoChats (str "c1") 1 (str "q") 0 2 (str "m") (str "D")
     (.httpError []) (.httpError []) 3 4 (by decide) (by decide)).1⟩

/- ## Lemmas connecting the deterministic sort to the ORDER BY contract -/

theorem insertByCreated_perm (m : MessageRec) :
    ∀ l : List MessageRec, (insertByCreated m l).Perm (m :: l) := by
  intro l
  induction l with
  | nil => exact List.Perm.refl _
  | cons x xs ih =>
    by_cases h : m.created_at ≤ x.created_at
    · rw [insertByCreated, if_pos h]
    · rw [insertByCreated, if_neg h]
      exact (ih.cons x).trans (List.Perm.swap m x xs)

theorem sortByCreated_perm : ∀ l : List MessageRec, (sortByCreated l).Perm l := by
  intro l
  induction l with
  | nil => exact List.Perm.refl _
  | cons x xs ih =>
    rw [sortByCreated]
    exact (insertByCreated_perm x (sortByCreated xs)).trans (ih.cons x)

theorem insertByCreated_chain (m : MessageRec) :
    ∀ l : List MessageRec,
      List.Chain' (fun a b : MessageRec => a.created_at ≤ b.created_at) l →
      List.Chain' (fun a b : MessageRec => a.created_at ≤ b.created_at)
        (insertByCreated m l) := by
  intro l
  induction l with
  | nil => intro _; simp [insertByCreated]
  | cons x xs ih =>
    intro hc
    by_cases h : m.created_at ≤ x.created_at
    · rw [insertByCreated, if_pos h]
      exact List.chain'_cons.mpr ⟨h, hc⟩
    · rw [insertByCreated, if_neg h]
      have hx : x.created_at ≤ m.created_at := le_of_not_le h
      have ht := ih hc.tail
      have hhead : ∀ (y : MessageRec) (ys : List MessageRec),
          insertByCreated m xs = y :: ys → x.created_at ≤ y.created_at := by
        intro y ys hE
        cases xs with
        | nil =>
          rw [insertByCreated] at hE
          injection hE with h1 _
          rw [← h1]
          exact hx
        | cons z zs =>
          rw [insertByCreated] at hE
          by_cases hmz : m.created_at ≤ z.created_at
          · rw [if_pos hmz] at hE
            injection hE with h1 _
            rw [← h1]
            exact hx
          · rw [if_neg hmz] at hE
            injection hE with h1 _
            rw [← h1]
            exact (List.chain'_cons.mp hc).1
      cases hE : insertByCreated m xs with
      | nil => simp
      | cons y ys =>
        rw [hE] at ht
        exact List.chain'_cons.mpr ⟨hhead y ys hE, ht⟩

theorem sortByCreated_chain :
    ∀ l : List MessageRec,
      List.Chain' (fun a b : MessageRec => a.created_at ≤ b.created_at)
        (sortByCreated l) := by
  intro l
  induction l with
  | nil => simp [sortByCreated]
  | cons x xs ih =>
    rw [sortByCreated]
    exact insertByCreated_chain x (sortByCreated xs) ih

/-- A non-decreasing permutation of a STRICTLY increasing row list is that
list itself: strict created_at keys leave the ORDER BY result no freedom. -/
theorem perm_chain_eq_of_strict :
    ∀ (rows result : List MessageRec),
      result.Perm rows →
      List.Chain' (fun a b : MessageRec => a.created_at < b.created_at) rows →
      List.Chain' (fun a b : MessageRec => a.created_at ≤ b.created_at) result →
      result = rows := by
  intro rows
  induction rows with
  | nil =>
    intro result hp _ _
    exact hp.eq_nil
  | cons x rows' ih =>
    intro result hp hs hr
    cases result with
    | nil => exact absurd hp.symm.eq_nil (List.cons_ne_nil x rows')
    | cons h t =>
      haveI : IsTrans MessageRec (fun a b => a.created_at < b.created_at) :=
        ⟨fun a b c hab hbc => lt_trans hab hbc⟩
      haveI : IsTrans MessageRec (fun a b => a.created_at ≤ b.created_at) :=
        ⟨fun a b c hab hbc => le_trans hab hbc⟩
      have hpw_rows := List.chain'_iff_pairwise.mp hs
      have hpw_res := List.chain'_iff_pairwise.mp hr
      have hhx : h = x := by
        by_contra hne
        have hmem : h ∈ x :: rows' := hp.mem_iff.mp (List.mem_cons_self h t)
        have hmem' : h ∈ rows' := by
          rcases List.mem_cons.mp hmem with hEq | hIn
          · exact absurd hEq hne
          · exact hIn
        have hxh : x.created_at < h.created_at :=
          (List.pairwise_cons.mp hpw_rows).1 h hmem'
        have hxm : x ∈ h :: t := hp.symm.mem_iff.mp (List.mem_cons_self x rows')
        have hxt : x ∈ t := by
          rcases List.mem_cons.mp hxm with hEq | hIn
          · exact absurd hEq.symm hne
          · exact hIn
        have hhx2 : h.created_at ≤ x.created_at :=
          (List.pairwise_cons.mp hpw_res).1 x hxt
        exact absurd hxh (not_lt.mpr hhx2)
      subst hhx
      rw [ih t hp.cons_inv hs.tail hr.tail]

/-- C9 counterexample: at the claim's own distinguishing case — two appends
with EQUAL created_at timestamps — the swapped row order is also an
admissible result of the program's `ORDER BY created_at` query (a sorted
permutation of the rows), and its (role, content, created_at) projection
differs from the order in which `add_message` was called; so the program
does not guarantee the claimed order at ties. -/
theorem c9_tie_order_counterexample :
    isOrderByCreatedResult
      ((applyAppends dbOneChat (str "c1")
          [(str "user", str "hi", 5), (str "assistant", str "yo", 5)]).messages.filter
        (fun m => m.chat_id == str "c1"))
      [⟨1, str "c1", str "assistant", str "yo", 5⟩,
       ⟨0, str "c1", str "user", str "hi", 5⟩] ∧
    ([⟨1, str "c1", str "assistant", str "yo", 5⟩,
      ⟨0, str "c1", str "user", str "hi", 5⟩] : List MessageRec).map
        (fun m => (m.role, m.content, m.created_at)) ≠
      [(str "user", str "hi", 5), (str "assistant", str "yo", 5)] := by
  refine ⟨⟨?_, ?_⟩, ?_⟩
  · have hE : ((applyAppends dbOneChat (str "c1")
        [(str "user", str "hi", 5), (str "assistant", str "yo", 5)]).messages.filter
          (fun m => m.chat_id == str "c1")) =
        [⟨0, str "c1", str "user", str "hi", 5⟩,
         ⟨1, str "c1", str "assistant", str "yo", 5⟩] := by decide
    rw [hE]
    exact List.Perm.swap (⟨0, str "c1", str "user", str "hi", 5⟩ : MessageRec)
      (⟨1, str "c1", str "assistant", str "yo", 5⟩ : MessageRec) []
  · exact List.chain'_cons.mpr ⟨le_refl 5, List.chain'_singleton _⟩
  · decide

/-- C9 as amended: starting from a state whose messages all belong to other
chats, every admissible `ORDER BY created_at` result of the chat's rows after
a sequence of `add_message` calls consists of exactly the appended messages
(its (role, content, created_at) projection is a permutation of the append
sequence) in non-decreasing created_at order; when the appends' timestamps
are STRICTLY increasing the result is forced to the exact call order; and
the deterministic `get_chat_messages` embedding is itself one admissible
result. -/
theorem c9_message_ordering_amended (db : DB) (cid : Str) (l : List (Str × Str × Nat))
    (result : List MessageRec)
    (h0 : ∀ m ∈ db.messages, m.chat_id ≠ cid)
    (hres : isOrderByCreatedResult
      ((applyAppends db cid l).messages.filter (fun m => m.chat_id == cid)) result) :
    (result.map (fun m => (m.role, m.content, m.created_at))).Perm l ∧
    List.Chain' (fun a b => a ≤ b) (result.map (fun m => m.created_at)) ∧
    (List.Chain' (fun a b : Str × Str × Nat => a.2.2 < b.2.2) l →
      result.map (fun m => (m.role, m.content, m.created_at)) = l) ∧
    isOrderByCreatedResult
      ((applyAppends db cid l).messages.filter (fun m => m.chat_id == cid))
      (get_chat_messages (applyAppends db cid l) cid) := by
  have hfilter : ((applyAppends db cid l).messages.filter (fun m => m.chat_id == cid)) =
      mkMsgs db.nextMessageId cid l := by
    rw [applyAppends_messages cid l db, List.filter_append, mkMsgs_filter]
    have h1 : db.messages.filter (fun m => m.chat_id == cid) = [] := by
      apply List.filter_eq_nil_iff.mpr
      intro a ha
      simp [h0 a ha]
    rw [h1, List.nil_append]
  have hperm : result.Perm (mkMsgs db.nextMessageId cid l) := by
    rw [← hfilter]
    exact hres.1
  refine ⟨?_, ?_, ?_, ?_, ?_⟩
  · have := hperm.map (fun m => (m.role, m.content, m.created_at))
    rwa [mkMsgs_project] at this
  · exact (List.chain'_map _).mpr hres.2
  · intro hstrict
    have hstrictrecs : List.Chain' (fun a b : MessageRec => a.created_at < b.created_at)
        (mkMsgs db.nextMessageId cid l) := by
      apply (List.chain'_map (fun m : MessageRec => m.created_at)).mp
      rw [mkMsgs_created_at]
      exact (List.chain'_map _).mpr hstrict
    rw [perm_chain_eq_of_strict (mkMsgs db.nextMessageId cid l) result hperm
      hstrictrecs hres.2, mkMsgs_project]
  · unfold get_chat_messages
    exact sortByCreated_perm _
  · unfold get_chat_messages
    exact sortByCreated_chain _

/-- Witness for the amended C9: two appends with strictly increasing
timestamps (5 then 6): the only admissible result is the call order. -/
theorem c9_message_ordering_amended_witness :
    ([⟨0, str "c1", str "user", str "hi", 5⟩,
      ⟨1, str "c1", str "assistant", str "yo", 6⟩] : List MessageRec).map
        (fun m => (m.role, m.content, m.created_at)) =
      [(str "user", str "hi", 5), (str "assistant", str "yo", 6)] := by
  have hE : ((applyAppends dbOneChat (str "c1")
      [(str "user", str "hi", 5), (str "assistant", str "yo", 6)]).messages.filter
        (fun m => m.chat_id == str "c1")) =
      [⟨0, str "c1", str "user", str "hi", 5⟩,
       ⟨1, str "c1", str "assistant", str "yo", 6⟩] := by decide
  have hres : isOrderByCreatedResult
      ((applyAppends dbOneChat (str "c1")
        [(str "user", str "hi", 5), (str "assistant", str "yo", 6)]).messages.filter
          (fun m => m.chat_id == str "c1"))
      [⟨0, str "c1", str "user", str "hi", 5⟩,
       ⟨1, str "c1", str "assistant", str "yo", 6⟩] := by
    unfold isOrderByCreatedResult
    constructor
    · rw [hE]
    · exact List.chain'_cons.mpr ⟨by decide, List.chain'_singleton _⟩
  exact (c9_message_ordering_amended dbOneChat (str "c1")
    [(str "user", str "hi", 5), (str "assistant", str "yo", 6)]
    [⟨0, str "c1", str "user", str "hi", 5⟩, ⟨1, str "c1", str "assistant", str "yo", 6⟩]
    (by decide) hres).2.2.1
    (List.chain'_cons.mpr ⟨by decide, List.chain'_singleton _⟩)
